import Mathlib

/-!
Verification of the styly.ai background service worker
(src/background/background.js, shallow embedding).

The embedding models the product-image cache over chrome.storage.local
(getCachedProductImage, cacheProductImage, cleanupOldCachedImages,
clearProductImageCache, getCacheInfo), the URL hash used for cache keys
(generateUrlHash), and the progressive outfit pipeline
(generateOutfitImage, extractActualProductImage) with the network
(convertUrlToBase64 fetches and OpenRouter synthesis calls) supplied by
an explicit environment oracle.  Async JS functions become explicit
state-passing functions returning an Except value (a rejected promise is
an Except.error); the run records an event trace (fetches, synthesis
calls, cache writes) so that call-counting and ordering properties can
be stated.
-/

namespace StyleMe

/-- JavaScript primitive values that can sit in a stored object field.
Used for the fields of a cache entry whose content is not statically
known (a corrupted entry may hold anything).  Floating point NaN is not
modelled; no claim depends on it. -/
inductive JsVal where
  | undef
  | null
  | bool (b : Bool)
  | num (n : Int)
  | str (s : String)
  deriving Repr, DecidableEq

/-- JavaScript truthiness of a primitive value. -/
def JsVal.truthy : JsVal → Bool
  | .undef => false
  | .null => false
  | .bool b => b
  | .num n => n != 0
  | .str s => s != ""

/-- The string content of a value (used only where the code has already
established the value is a string). -/
def JsVal.strVal : JsVal → String
  | .str s => s
  | _ => ""

/-- Boolean prefix test on strings, the model of JS String.startsWith
(and of Lean String.startsWith), written over the character list so it
evaluates by kernel reduction. -/
def strStartsWith (s pre : String) : Bool :=
  s.data.take pre.data.length == pre.data

/-- A value stored in chrome.storage.local, modelled as a JS object with
the three fields the background worker reads on cache entries
(image, timestamp, url).  Non-cache values (the API key text, the user
image, the saved product list) are carried opaquely in the extra field;
reading an absent field yields undef/none as in JS.  The timestamp field
is either absent or a number: the code only ever writes Date.now() into
it, and no claim involves a non-numeric timestamp. -/
structure StoredVal where
  image : JsVal
  timestamp : Option Int
  url : JsVal
  extra : String
  deriving Repr, DecidableEq

/-- An opaque non-cache stored value (API key, user image, ...). -/
def plainVal (s : String) : StoredVal :=
  ⟨JsVal.undef, none, JsVal.undef, s⟩

/-- chrome.storage.local contents: a key-value map modelled as an
association list (storageSet keeps keys unique). -/
abbrev Storage := List (String × StoredVal)

/-- Read one key (chrome.storage.local.get([k])). -/
def storageGet (st : Storage) (k : String) : Option StoredVal :=
  match st.find? (fun p => p.1 == k) with
  | some p => some p.2
  | none => none

/-- Write one key (chrome.storage.local.set), overwriting any previous
value under the same key. -/
def storageSet (st : Storage) (k : String) (v : StoredVal) : Storage :=
  (k, v) :: st.filter (fun p => p.1 != k)

/-- Multi-key delete (chrome.storage.local.remove). -/
def storageRemove (st : Storage) (ks : List String) : Storage :=
  st.filter (fun p => !(ks.contains p.1))

/-- Storage read that can fail: the failing flag models the storage
layer being unavailable, in which case every access rejects. -/
def storageGetE (failing : Bool) (st : Storage) (k : String) :
    Except String (Option StoredVal) :=
  if failing then Except.error "storage error" else Except.ok (storageGet st k)

/-- Fallible bulk read of every key (chrome.storage.local.get(null)). -/
def storageGetAllE (failing : Bool) (st : Storage) : Except String Storage :=
  if failing then Except.error "storage error" else Except.ok st

/-- Fallible write. -/
def storageSetE (failing : Bool) (st : Storage) (k : String) (v : StoredVal) :
    Except String Storage :=
  if failing then Except.error "storage error" else Except.ok (storageSet st k v)

/-- Fallible multi-key delete. -/
def storageRemoveE (failing : Bool) (st : Storage) (ks : List String) :
    Except String Storage :=
  if failing then Except.error "storage error" else Except.ok (storageRemove st ks)

/-- One step of generateUrlHash: JS hash = (hash << 5) - hash + char
followed by hash = hash & hash, i.e. coercion to a signed 32-bit
integer. -/
def toInt32 (n : Int) : Int :=
  let m := n % 4294967296
  if m < 2147483648 then m else m - 4294967296

/-- The body of the generateUrlHash loop for one character code. -/
def hashStep (h : Int) (c : Nat) : Int :=
  toInt32 (toInt32 (h * 32) - h + (c : Int))

/-- Digit character for bases up to 36 (0-9 then a-z), as produced by JS
Number.toString(36). -/
def base36Digit (d : Nat) : Char :=
  if d < 10 then Char.ofNat (48 + d) else Char.ofNat (87 + d)

/-- Base-36 digit accumulation.  The fuel argument (any bound at least
the number of digits, the callers pass n + 1) keeps the recursion
structural so that the definition evaluates by kernel reduction. -/
def toBase36Core : Nat → Nat → List Char → List Char
  | 0, _, acc => acc
  | _ + 1, 0, acc => acc
  | fuel + 1, n, acc => toBase36Core fuel (n / 36) (base36Digit (n % 36) :: acc)

/-- JS Number.toString(36) for a natural number. -/
def toBase36 (n : Nat) : String :=
  if n = 0 then "0" else String.mk (toBase36Core (n + 1) n [])

/-- generateUrlHash: the 32-bit string hash used for cache keys,
rendered in base 36 after Math.abs.  Characters are taken as code
points; the JS original uses UTF-16 code units, which agree on all
claims (plain ASCII URLs). -/
def generateUrlHash (url : String) : String :=
  toBase36 (url.data.foldl (fun h c => hashStep h c.toNat) 0).natAbs

/-- The storage key used for the cache entry of a product image URL. -/
def cacheKey (url : String) : String :=
  "productImage_" ++ generateUrlHash url

/-- The validation applied to a cached payload before it is returned as
a hit: it must be a string starting with the data-URL marker
(typeof image === string and image.startsWith(data:)). -/
def jsIsDataString : JsVal → Bool
  | .str s => strStartsWith s "data:"
  | _ => false

/-- Body of getCachedProductImage (the code inside its try block).
Looks the entry up by hashed key; a truthy payload failing validation is
removed from storage and reported as a miss; a falsy payload (and an
absent entry) is a miss with storage untouched. -/
def getCachedProductImageTry (failing : Bool) (st : Storage) (url : String) :
    Except String (Option StoredVal × Storage) := do
  let res ← storageGetE failing st (cacheKey url)
  match res with
  | some v =>
    if v.image.truthy then
      if jsIsDataString v.image then
        pure (some v, st)
      else do
        let st2 ← storageRemoveE failing st [cacheKey url]
        pure (none, st2)
    else
      pure (none, st)
  | none => pure (none, st)

/-- getCachedProductImage: the catch clause logs the storage error and
returns null, so the function always resolves; a storage failure is
indistinguishable from a miss. -/
def getCachedProductImage (failing : Bool) (st : Storage) (url : String) :
    Option StoredVal × Storage :=
  match getCachedProductImageTry failing st url with
  | Except.ok r => r
  | Except.error _ => (none, st)

/-- The cache entry written by cacheProductImage: the image payload, the
current time, and the source URL. -/
def cacheEntry (img : String) (now : Int) (url : String) : StoredVal :=
  ⟨JsVal.str img, some now, JsVal.str url, ""⟩

/-- Body of cacheProductImage (inside its try block): one storage write
under the hashed key with a fresh timestamp. -/
def cacheProductImageTry (failing : Bool) (st : Storage) (url img : String)
    (now : Int) : Except String Storage :=
  storageSetE failing st (cacheKey url) (cacheEntry img now url)

/-- cacheProductImage: the catch clause logs the storage error, so the
function always resolves and a failed write stores nothing. -/
def cacheProductImage (failing : Bool) (st : Storage) (url img : String)
    (now : Int) : Storage :=
  match cacheProductImageTry failing st url img now with
  | Except.ok st2 => st2
  | Except.error _ => st

/-- Truthiness of the timestamp field (value.timestamp in JS). -/
def tsTruthy : Option Int → Bool
  | some t => t != 0
  | none => false

/-- Default max age for cached product images: 24 hours in ms. -/
def defaultMaxAgeMs : Int := 24 * 60 * 60 * 1000

/-- The keysToRemove list built by the cleanup loop: keys of entries
carrying the product-image marker whose truthy timestamp is strictly
older than maxAge relative to now. -/
def cleanupKeysToRemove (all : Storage) (now maxAge : Int) : List String :=
  (all.filter (fun p =>
    strStartsWith p.1 "productImage_" && tsTruthy p.2.timestamp &&
      decide (now - p.2.timestamp.getD 0 > maxAge))).map Prod.fst

/-- Body of cleanupOldCachedImages (inside its try block): enumerate all
keys, collect product-image keys whose truthy timestamp is strictly
older than maxAge, and remove them in one call when any exist. -/
def cleanupOldCachedImagesTry (failing : Bool) (st : Storage)
    (now maxAge : Int) : Except String Storage := do
  let all ← storageGetAllE failing st
  let keysToRemove := cleanupKeysToRemove all now maxAge
  if keysToRemove.length > 0 then
    storageRemoveE failing st keysToRemove
  else
    pure st

/-- cleanupOldCachedImages with an explicit maxAge argument; the catch
clause swallows storage errors, leaving storage unchanged. -/
def cleanupOldCachedImages (failing : Bool) (st : Storage)
    (now maxAge : Int) : Storage :=
  match cleanupOldCachedImagesTry failing st now maxAge with
  | Except.ok st2 => st2
  | Except.error _ => st

/-- cleanupOldCachedImages called without an argument: the JS default
parameter supplies 24 hours. -/
def cleanupOldCachedImagesDefault (failing : Bool) (st : Storage)
    (now : Int) : Storage :=
  cleanupOldCachedImages failing st now defaultMaxAgeMs

/-- The schedule installed by setupCacheCleanup. -/
structure CleanupSchedule where
  intervalMs : Nat
  runAtStart : Bool
  deriving Repr, DecidableEq

/-- setupCacheCleanup: a setInterval of 6 hours plus one initial cleanup
call at service start. -/
def setupCacheCleanup : CleanupSchedule :=
  ⟨6 * 60 * 60 * 1000, true⟩

/-- Body of clearProductImageCache (inside its try block): enumerate all
keys and remove every key carrying the product-image marker. -/
def clearProductImageCacheTry (failing : Bool) (st : Storage) :
    Except String Storage := do
  let all ← storageGetAllE failing st
  let keysToRemove := (all.map Prod.fst).filter
    (fun k => strStartsWith k "productImage_")
  if keysToRemove.length > 0 then
    storageRemoveE failing st keysToRemove
  else
    pure st

/-- clearProductImageCache: the catch clause swallows storage errors. -/
def clearProductImageCache (failing : Bool) (st : Storage) : Storage :=
  match clearProductImageCacheTry failing st with
  | Except.ok st2 => st2
  | Except.error _ => st

/-- getCacheInfo: a bulk storage read whose statistics are only logged;
we model the cache-key count and the fact that, unlike the other cache
helpers, its catch clause rethrows, so a storage failure rejects. -/
def getCacheInfo (failing : Bool) (st : Storage) : Except String Nat := do
  let all ← storageGetAllE failing st
  pure ((all.map Prod.fst).filter (fun k => strStartsWith k "productImage_")).length

/-- One generated image in an OpenRouter response
(choices[0].message.images[i]).  url is image_url.url; none models a
missing image_url object or a missing url field (both are skipped by
the same guard). -/
structure GenImage where
  url : Option String
  deriving Repr, DecidableEq

/-- An OpenRouter chat-completions response as read by the worker:
the HTTP status outcome, the optional structured images list
(an absent field and an empty list behave identically and are both
modelled by the empty list), and the free-text message content. -/
structure ApiResponse where
  ok : Bool
  status : Nat
  errText : String
  images : List GenImage
  content : String
  deriving Repr, DecidableEq

/-- Observable effects of one pipeline run, in order: a network image
fetch (convertUrlToBase64), a remote synthesis POST with its image
attachments, or a successful cache write. -/
inductive Event where
  | fetch (url : String)
  | synth (atts : List String)
  | cachePut (key img : String)
  deriving Repr, DecidableEq

/-- The external world: what convertUrlToBase64 resolves each URL to
(Except.error is a network failure or non-success status), and the
response to the n-th synthesis call of the run. -/
structure Env where
  fetch : String → Except String String
  api : Nat → ApiResponse

/-- State threaded through one run: the storage-availability flag, the
storage contents, the clock (Date.now(), constant within a run), the
number of synthesis calls already issued, and the event trace. -/
structure RunState where
  failing : Bool
  store : Storage
  now : Int
  apiCalls : Nat
  trace : List Event
  deriving Repr, DecidableEq

/-- convertUrlToBase64 against the environment oracle: one network
fetch event; the result is a base64 data URL or a rejection
(Failed to fetch image).  The mime-tag fixup inside the JS function is
performed opaquely by the oracle. -/
def convertUrlToBase64 (env : Env) (s : RunState) (url : String) :
    Except String String × RunState :=
  (env.fetch url, { s with trace := s.trace ++ [Event.fetch url] })

/-- One POST to the OpenRouter chat-completions endpoint with the given
image attachments (the prompt text is a constant and is not modelled). -/
def callApi (env : Env) (s : RunState) (atts : List String) :
    ApiResponse × RunState :=
  (env.api s.apiCalls,
    { s with apiCalls := s.apiCalls + 1, trace := s.trace ++ [Event.synth atts] })

/-- getCachedProductImage lifted to the run state. -/
def getCachedProductImageS (s : RunState) (url : String) :
    Option StoredVal × RunState :=
  let r := getCachedProductImage s.failing s.store url
  (r.1, { s with store := r.2 })

/-- cacheProductImage lifted to the run state; a successful write is
recorded as a cachePut event, a swallowed storage failure leaves the
state unchanged. -/
def cacheProductImageS (s : RunState) (url img : String) : RunState :=
  match cacheProductImageTry s.failing s.store url img s.now with
  | Except.ok st2 =>
      { s with store := st2,
               trace := s.trace ++ [Event.cachePut (cacheKey url) img] }
  | Except.error _ => s

/-- Whitespace for the purpose of the URL regex character class. -/
def isSpaceChar (c : Char) : Bool :=
  c = ' ' || c = '\t' || c = '\n' || c = '\r'

/-- The greedy one-or-more non-whitespace tail of a regex URL match. -/
def takeUrlChars (cs : List Char) : List Char :=
  cs.takeWhile (fun c => !(isSpaceChar c))

/-- Regex match attempt anchored at the current position: the scheme
part (https before http, as the optional s is greedy) followed by at
least one non-whitespace character. -/
def urlMatchAt (cs : List Char) : Option (List Char) :=
  if cs.take 8 == "https://".data then
    let tail := takeUrlChars (cs.drop 8)
    if tail.isEmpty then none else some ("https://".data ++ tail)
  else if cs.take 7 == "http://".data then
    let tail := takeUrlChars (cs.drop 7)
    if tail.isEmpty then none else some ("http://".data ++ tail)
  else none

/-- Leftmost regex match scan. -/
def firstUrlMatchCore : List Char → Option (List Char)
  | [] => none
  | c :: rest =>
    match urlMatchAt (c :: rest) with
    | some m => some m
    | none => firstUrlMatchCore rest

/-- contentStr.match of the URL regex, reduced to its first match:
the leftmost occurrence of http(s)-colon-slash-slash followed by a
maximal nonempty run of non-whitespace characters. -/
def firstUrlMatch (s : String) : Option String :=
  (firstUrlMatchCore s.data).map (fun l => String.mk l)

/-- The text-scan arm of response parsing: take the first URL-like
match of the free-text content and fetch it, else reject with the
caller-specific no-image message. -/
def resolveFromText (env : Env) (s : RunState) (content failMsg : String) :
    Except String String × RunState :=
  match firstUrlMatch content with
  | some u => convertUrlToBase64 env s u
  | none => (Except.error failMsg, s)

/-- The shared response-parsing chain of generateOutfitImage and
extractActualProductImage: (a) a structured images entry whose URL is a
data URL is used directly, an http URL is fetched and converted;
(b) otherwise the free text is scanned for the first URL-like match,
which is fetched; (c) otherwise the call rejects with failMsg. -/
def resolveResponseImage (env : Env) (s : RunState) (resp : ApiResponse)
    (failMsg : String) : Except String String × RunState :=
  match resp.images with
  | img :: _ =>
    match img.url with
    | some u =>
      if strStartsWith u "data:" then (Except.ok u, s)
      else if strStartsWith u "http" then convertUrlToBase64 env s u
      else resolveFromText env s resp.content failMsg
    | none => resolveFromText env s resp.content failMsg
  | [] => resolveFromText env s resp.content failMsg

/-- The cachedImage-and-cachedImage.image guard shared by the callers of
getCachedProductImage: the payload string when the lookup produced an
entry with a truthy image field. -/
def cacheHitImage : Option StoredVal → Option String
  | some v => if v.image.truthy then some v.image.strVal else none
  | none => none

/-- extractActualProductImage: return the cached payload on a hit;
on a miss fetch the raw image, cache it, issue one synthesis call
(attachment: the raw image), and resolve the response, caching the
extracted payload on every success path.  Failures reject (the JS parse
catch only rethrows). -/
def extractActualProductImage (env : Env) (s : RunState)
    (apiKey url name : String) : Except String String × RunState :=
  let c := getCachedProductImageS s url
  match cacheHitImage c.1 with
  | some img => (Except.ok img, c.2)
  | none =>
    let f := convertUrlToBase64 env c.2 url
    match f.1 with
    | Except.error e => (Except.error e, f.2)
    | Except.ok raw =>
      let s3 := cacheProductImageS f.2 url raw
      let a := callApi env s3 [raw]
      if a.1.ok = false then
        (Except.error ("Failed to extract product image for " ++ name ++
          ": " ++ toString a.1.status ++ " " ++ a.1.errText), a.2)
      else
        let r := resolveResponseImage env a.2 a.1
          ("Failed to extract product image for " ++ name)
        match r.1 with
        | Except.error e => (Except.error e, r.2)
        | Except.ok img => (Except.ok img, cacheProductImageS r.2 url img)

/-- A submitted apparel item: display name and source image URL. -/
structure Product where
  name : String
  image : String
  deriving Repr, DecidableEq

/-- Step 1 of one loop iteration of generateOutfitImage, including its
try/catch: use the cached payload when present, else extract; if
extraction rejects, fall back to fetching the original source image
(whose own failure propagates). -/
def generateStep1 (env : Env) (s : RunState) (apiKey : String) (p : Product) :
    Except String String × RunState :=
  let c := getCachedProductImageS s p.image
  match cacheHitImage c.1 with
  | some img => (Except.ok img, c.2)
  | none =>
    let e := extractActualProductImage env c.2 apiKey p.image p.name
    match e.1 with
    | Except.ok a => (Except.ok a, e.2)
    | Except.error _ => convertUrlToBase64 env e.2 p.image

/-- Step 2 of one loop iteration: one synthesis call whose attachments
are the current outfit image and the resolved apparel image; a
non-success status rejects naming the product, otherwise the response is
resolved through the parsing chain with the product-naming no-image
message. -/
def composeStep (env : Env) (p : Product) (current actual : String)
    (s : RunState) : Except String String × RunState :=
  let a := callApi env s [current, actual]
  if a.1.ok = false then
    (Except.error ("OpenRouter API Error for " ++ p.name ++ ": " ++
      toString a.1.status ++ " " ++ a.1.errText), a.2)
  else
    resolveResponseImage env a.2 a.1
      ("Failed to generate image for " ++ p.name)

/-- The progressive composition loop: strictly in list order, each
iteration resolves the item image (step 1) and composes it onto the
current outfit image (step 2); the first rejection aborts the whole
loop. -/
def generateOutfitLoop (env : Env) (apiKey : String) :
    List Product → String → RunState → Except String String × RunState
  | [], current, s => (Except.ok current, s)
  | p :: rest, current, s =>
    let st1 := generateStep1 env s apiKey p
    match st1.1 with
    | Except.error e => (Except.error e, st1.2)
    | Except.ok actual =>
      let st2 := composeStep env p current actual st1.2
      match st2.1 with
      | Except.error e => (Except.error e, st2.2)
      | Except.ok next => generateOutfitLoop env apiKey rest next st2.2

/-- generateOutfitImage: reject on a falsy API key, convert the base
photo, run the loop, log the cache summary (getCacheInfo, whose storage
failure rethrows), and return the final accumulated image. -/
def generateOutfitImage (env : Env) (s : RunState)
    (apiKey inputImageUrl : String) (products : List Product) :
    Except String String × RunState :=
  if apiKey = "" then (Except.error "API key is required", s)
  else
    let f := convertUrlToBase64 env s inputImageUrl
    match f.1 with
    | Except.error e => (Except.error e, f.2)
    | Except.ok base =>
      let r := generateOutfitLoop env apiKey products base f.2
      match r.1 with
      | Except.error e => (Except.error e, r.2)
      | Except.ok final =>
        match getCacheInfo (r.2).failing (r.2).store with
        | Except.error e => (Except.error e, r.2)
        | Except.ok _ => (Except.ok final, r.2)

/-- A healthy run state over the given storage. -/
def mkState (st : Storage) : RunState :=
  ⟨false, st, 1000, 0, []⟩

/-- A store holding one corrupt cache entry whose payload is the empty
string (falsy, not image-like). -/
def emptyPayloadStore : Storage :=
  [(cacheKey "u", ⟨JsVal.str "", some 1, JsVal.str "u", ""⟩)]

/-- A store holding one corrupt cache entry whose payload is a truthy
non-data string. -/
def truthyCorruptStore : Storage :=
  [(cacheKey "u", ⟨JsVal.str "garbage", some 1, JsVal.str "u", ""⟩)]

/-- A store holding one valid cache entry for URL u plus unrelated keys
(API key, user image, saved products). -/
def mixedStore : Storage :=
  [(cacheKey "u", cacheEntry "data:image/png;base64,AA" 1 "u"),
   ("openRouterApiKey", plainVal "sk"),
   ("userImage", plainVal "data:image/jpeg;base64,BB"),
   ("savedProducts", plainVal "[]")]

/-- Modelled from the claim wording, for comparison with the code: a
product-image cache entry whose recorded timestamp is strictly older
than maxAge relative to the call time (the exclusive boundary the claim
states). -/
def specExpired (now maxAge : Int) (p : String × StoredVal) : Bool :=
  strStartsWith p.1 "productImage_" &&
    (match p.2.timestamp with
     | some t => decide (now - t > maxAge)
     | none => false)

/-- A recorded timestamp is positive when present (true of everything
the code writes: Date.now() is positive). -/
def tsPos : Option Int → Bool
  | some t => decide (0 < t)
  | none => true

/-- A store for the sweep example: one stale cache entry, one entry at
the exact age boundary, one fresh entry, one unrelated key. -/
def sweepStore : Storage :=
  [(cacheKey "u", cacheEntry "data:AA" 100 "u"),
   (cacheKey "w", cacheEntry "data:BB" 950 "w"),
   (cacheKey "x", cacheEntry "data:CC" 500 "x"),
   ("openRouterApiKey", plainVal "sk")]

/-- An environment whose fetches always succeed with a data URL derived
from the requested URL and whose synthesis calls always return a
structured data-URL image. -/
def demoEnv : Env :=
  ⟨fun u => Except.ok ("data:image/png;base64," ++ u),
   fun _ => ⟨true, 200, "", [⟨some "data:gen"⟩], ""⟩⟩

/-- A response carrying a structured data-URL image. -/
def respDataImage : ApiResponse := ⟨true, 200, "", [⟨some "data:gen"⟩], ""⟩

/-- A response with no structured image and no URL in its free text. -/
def respNoImageAtAll : ApiResponse := ⟨true, 200, "", [], "no image here"⟩

/-- A rejected synthesis response (non-success HTTP status). -/
def respFail : ApiResponse := ⟨false, 500, "boom", [], ""⟩

/-- An environment whose first synthesis call succeeds with a
structured data-URL image and whose second (and later) calls are
rejected by the remote service. -/
def envFailSecond : Env :=
  ⟨fun u => Except.ok ("data:image/png;base64," ++ u),
   fun n => if n = 0 then respDataImage else respFail⟩

/-- A concrete apparel item. -/
def redJacket : Product := ⟨"Red Jacket", "u"⟩

/-- An environment whose fetches succeed but whose synthesis service is
down: every remote call is rejected. -/
def envApiDown : Env :=
  ⟨fun u => Except.ok ("data:image/png;base64," ++ u), fun _ => respFail⟩

/-- The per-item composition response resolves no image at all: no
usable structured images entry (absent or empty list, first entry
without a URL, or a URL carrying neither the data nor the http marker)
and no URL-like match in the free-text content. -/
def respNoImage (resp : ApiResponse) : Bool :=
  (match resp.images with
   | [] => true
   | img :: _ =>
     match img.url with
     | none => true
     | some u => !(strStartsWith u "data:") && !(strStartsWith u "http")) &&
  (firstUrlMatch resp.content).isNone

theorem storageGet_filter_none (st : Storage) (q : String × StoredVal → Bool)
    (k : String) (h : ∀ p ∈ st, p.1 = k → q p = false) :
    storageGet (st.filter q) k = none := by
  have hf : (st.filter q).find? (fun p => p.1 == k) = none := by
    rw [List.find?_eq_none]
    intro p hp hbeq
    have hmem := (List.mem_filter.mp hp).1
    have hq := (List.mem_filter.mp hp).2
    have hk : p.1 = k := by simpa using hbeq
    rw [h p hmem hk] at hq
    exact Bool.noConfusion hq
  simp [storageGet, hf]

theorem storageGet_filter_keep (st : Storage) (q : String × StoredVal → Bool)
    (k : String) (h : ∀ p ∈ st, p.1 = k → q p = true) :
    storageGet (st.filter q) k = storageGet st k := by
  induction st with
  | nil => rfl
  | cons a l ih =>
    have ih2 := ih (fun p hp hk => h p (List.mem_cons_of_mem a hp) hk)
    by_cases hka : a.1 = k
    · have hqa : q a = true := h a (List.mem_cons_self a l) hka
      simp [storageGet, List.filter_cons, hqa, List.find?, hka]
    · have hne : (a.1 == k) = false := by simpa using hka
      by_cases hqa : q a = true
      · simpa [storageGet, List.filter_cons, hqa, List.find?, hne] using ih2
      · simp only [Bool.not_eq_true] at hqa
        simpa [storageGet, List.filter_cons, hqa, List.find?, hne] using ih2

theorem storageGet_set_self (st : Storage) (k : String) (v : StoredVal) :
    storageGet (storageSet st k v) k = some v := by
  simp [storageGet, storageSet, List.find?]

theorem storageGet_remove_self (st : Storage) (k : String) :
    storageGet (storageRemove st [k]) k = none := by
  apply storageGet_filter_none
  intro p _ hk
  simp [hk]

/-- One-lookup characterization of getCachedProductImage on healthy
storage, from which the cache claims are read off. -/
theorem getCachedProductImage_eq (st : Storage) (url : String) :
    getCachedProductImage false st url =
      match storageGet st (cacheKey url) with
      | some v =>
        if v.image.truthy then
          if jsIsDataString v.image then (some v, st)
          else (none, storageRemove st [cacheKey url])
        else (none, st)
      | none => (none, st) := by
  cases h : storageGet st (cacheKey url) with
  | none =>
    simp [getCachedProductImage, getCachedProductImageTry, storageGetE, h,
      Bind.bind, Except.bind, Pure.pure, Except.pure]
  | some v =>
    by_cases ht : v.image.truthy <;> by_cases hd : jsIsDataString v.image <;>
      simp [getCachedProductImage, getCachedProductImageTry, storageGetE,
        storageRemoveE, h, ht, hd, Bind.bind, Except.bind, Pure.pure,
        Except.pure]

/-- Claim C3, counterexample: a stored cache entry whose payload is the
empty string (not image-like, explicitly within the claim) makes get
return absent, but the entry is NOT deleted from storage as the claim
requires: the result storage is unchanged and still holds the corrupt
entry. -/
theorem cache_corruption_empty_payload_counterexample :
    getCachedProductImage false emptyPayloadStore "u" =
      (none, emptyPayloadStore) ∧
    storageGet emptyPayloadStore (cacheKey "u") =
      some ⟨JsVal.str "", some 1, JsVal.str "u", ""⟩ := by
  exact ⟨rfl, rfl⟩

/-- Claim C3 (amended): a non-image-like cached payload is never
returned as a hit: get returns absent, deleting the entry when the
payload is truthy (non-empty corrupt string, truthy non-string) and
leaving it in place when the payload is falsy (empty string, null,
missing); in both cases a second get on the same key again returns
absent and changes nothing, so nothing is re-inserted.  Conversely a
hit always carries a data-URL string payload and leaves storage
untouched. -/
theorem cache_corruption_recovery_amended :
    (∀ st url v, storageGet st (cacheKey url) = some v →
        jsIsDataString v.image = false →
        getCachedProductImage false st url =
          (none, if v.image.truthy then storageRemove st [cacheKey url]
                 else st) ∧
        getCachedProductImage false (getCachedProductImage false st url).2
            url =
          (none, (getCachedProductImage false st url).2)) ∧
    (∀ st url v st2, getCachedProductImage false st url = (some v, st2) →
        jsIsDataString v.image = true ∧ st2 = st) := by
  constructor
  · intro st url v hv hbad
    have h1 : getCachedProductImage false st url =
        (none, if v.image.truthy then storageRemove st [cacheKey url]
               else st) := by
      rw [getCachedProductImage_eq, hv]
      by_cases ht : v.image.truthy = true <;> simp [ht, hbad]
    refine ⟨h1, ?_⟩
    rw [h1]
    by_cases ht : v.image.truthy = true
    · simp only [ht, if_true]
      rw [getCachedProductImage_eq, storageGet_remove_self]
    · simp only [ht, if_false, Bool.false_eq_true]
      rw [getCachedProductImage_eq, hv]
      simp [ht]
  · intro st url v st2 hres
    rw [getCachedProductImage_eq] at hres
    cases hg : storageGet st (cacheKey url) with
    | none => rw [hg] at hres; simp at hres
    | some w =>
      rw [hg] at hres
      by_cases ht : w.image.truthy = true
      · by_cases hd : jsIsDataString w.image = true
        · simp only [ht, hd, if_true] at hres
          have hw : w = v := by
            have := congrArg Prod.fst hres
            simpa using this
          have hst : st = st2 := by
            have := congrArg Prod.snd hres
            simpa using this
          exact ⟨hw ▸ hd, hst.symm⟩
        · simp [ht, hd] at hres
      · simp [ht] at hres

/-- Claim C3 amended, witness at a truthy corrupt payload. -/
theorem cache_corruption_recovery_amended_witness :
    (getCachedProductImage false truthyCorruptStore "u" =
      (none, if (JsVal.str "garbage").truthy
             then storageRemove truthyCorruptStore [cacheKey "u"]
             else truthyCorruptStore)) ∧
    (getCachedProductImage false
        (getCachedProductImage false truthyCorruptStore "u").2 "u" =
      (none, (getCachedProductImage false truthyCorruptStore "u").2)) :=
  cache_corruption_recovery_amended.1 truthyCorruptStore "u"
    ⟨JsVal.str "garbage", some 1, JsVal.str "u", ""⟩ rfl rfl

/-- Claim C4, counterexample: with the storage layer unavailable, the
body of get rejects, but the function itself resolves with null, the
very same result an absent entry produces on healthy storage, and put
resolves leaving storage unchanged; no error reaches the caller, so
cache-unavailable and cache-miss are conflated. -/
theorem cache_unavailable_counterexample :
    getCachedProductImageTry true mixedStore "u" =
      Except.error "storage error" ∧
    getCachedProductImage true mixedStore "u" = (none, mixedStore) ∧
    getCachedProductImage false [] "u" = (none, []) ∧
    cacheProductImage true mixedStore "u" "data:new" 5 = mixedStore := by
  exact ⟨rfl, rfl, rfl, rfl⟩

/-- Claim C4 (amended): when storage access fails, get and put swallow
the error in their catch clauses: get resolves with null exactly as for
an absent entry and put resolves storing nothing, so callers cannot
distinguish cache-unavailable from cache-miss (the inner bodies do
reject, but the rejection never escapes). -/
theorem cache_unavailable_swallowed (st : Storage) (url img : String)
    (now : Int) :
    getCachedProductImage true st url = (none, st) ∧
    cacheProductImage true st url img now = st ∧
    getCachedProductImageTry true st url = Except.error "storage error" ∧
    cacheProductImageTry true st url img now =
      Except.error "storage error" := by
  exact ⟨rfl, rfl, rfl, rfl⟩

/-- Claim C10: clearProductImageCache removes exactly the storage keys
carrying the product-image marker and leaves the value under every
other key unchanged. -/
theorem clear_cache_frame (st : Storage) (k : String) :
    (strStartsWith k "productImage_" = true →
      storageGet (clearProductImageCache false st) k = none) ∧
    (strStartsWith k "productImage_" = false →
      storageGet (clearProductImageCache false st) k = storageGet st k) := by
  by_cases hlen :
      ((st.map Prod.fst).filter
        (fun k2 => strStartsWith k2 "productImage_")).length > 0
  · have hclear : clearProductImageCache false st =
        storageRemove st
          ((st.map Prod.fst).filter
            (fun k2 => strStartsWith k2 "productImage_")) := by
      simp [clearProductImageCache, clearProductImageCacheTry, storageGetAllE,
        storageRemoveE, Bind.bind, Except.bind, Pure.pure, Except.pure, hlen]
    constructor
    · intro hpref
      rw [hclear]
      apply storageGet_filter_none
      intro p hp hpk
      have hmem : p.1 ∈ (st.map Prod.fst).filter
          (fun k2 => strStartsWith k2 "productImage_") := by
        apply List.mem_filter.mpr
        exact ⟨List.mem_map_of_mem Prod.fst hp, by rw [hpk]; exact hpref⟩
      simp [hmem]
    · intro hnpref
      rw [hclear]
      apply storageGet_filter_keep
      intro p hp hpk
      have hnmem : p.1 ∉ (st.map Prod.fst).filter
          (fun k2 => strStartsWith k2 "productImage_") := by
        intro hmem
        have := (List.mem_filter.mp hmem).2
        rw [hpk, hnpref] at this
        exact Bool.noConfusion this
      simp [hnmem]
  · have hclear : clearProductImageCache false st = st := by
      simp [clearProductImageCache, clearProductImageCacheTry, storageGetAllE,
        storageRemoveE, Bind.bind, Except.bind, Pure.pure, Except.pure, hlen]
    have hempty : (st.map Prod.fst).filter
        (fun k2 => strStartsWith k2 "productImage_") = [] := by
      have hz : ((st.map Prod.fst).filter
          (fun k2 => strStartsWith k2 "productImage_")).length = 0 := by
        omega
      exact List.eq_nil_of_length_eq_zero hz
    constructor
    · intro hpref
      rw [hclear]
      have hf : st.find? (fun p => p.1 == k) = none := by
        rw [List.find?_eq_none]
        intro p hp hbeq
        have hpk : p.1 = k := by simpa using hbeq
        have : p.1 ∈ (st.map Prod.fst).filter
            (fun k2 => strStartsWith k2 "productImage_") := by
          apply List.mem_filter.mpr
          exact ⟨List.mem_map_of_mem Prod.fst hp, by rw [hpk]; exact hpref⟩
        rw [hempty] at this
        exact List.not_mem_nil p.1 this
      simp [storageGet, hf]
    · intro _
      rw [hclear]

/-- Claim C10, witness on a mixed store: the cache entry key is removed
while the API key entry keeps its value. -/
theorem clear_cache_frame_witness :
    (storageGet (clearProductImageCache false mixedStore) (cacheKey "u") =
      none) ∧
    (storageGet (clearProductImageCache false mixedStore) "openRouterApiKey" =
      storageGet mixedStore "openRouterApiKey") :=
  ⟨(clear_cache_frame mixedStore (cacheKey "u")).1 (by decide),
   (clear_cache_frame mixedStore "openRouterApiKey").2 (by decide)⟩

/-- Claim C7: on healthy storage with well-formed (positive) recorded
timestamps, the sweep removes exactly the product-image entries whose
recorded timestamp is strictly older than maxAge relative to the call
time; an entry whose age equals maxAge exactly is retained; the default
max age is 24 hours; the sweep is scheduled every 6 hours and run once
at service start. -/
theorem cleanup_expiry_exact (st : Storage) (now maxAge : Int)
    (hnodup : (st.map Prod.fst).Nodup)
    (hts : ∀ p ∈ st, strStartsWith p.1 "productImage_" = true →
      tsPos p.2.timestamp = true) :
    cleanupOldCachedImages false st now maxAge =
      st.filter (fun p => !(specExpired now maxAge p)) ∧
    (∀ p ∈ st, ∀ t, p.2.timestamp = some t → now - t = maxAge →
      p ∈ cleanupOldCachedImages false st now maxAge) ∧
    cleanupOldCachedImagesDefault false st now =
      cleanupOldCachedImages false st now defaultMaxAgeMs ∧
    defaultMaxAgeMs = 24 * 60 * 60 * 1000 ∧
    setupCacheCleanup.intervalMs = 6 * 60 * 60 * 1000 ∧
    setupCacheCleanup.runAtStart = true := by
  have hqspec : ∀ p ∈ st,
      (strStartsWith p.1 "productImage_" && tsTruthy p.2.timestamp &&
        decide (now - p.2.timestamp.getD 0 > maxAge)) =
        specExpired now maxAge p := by
    intro p hp
    by_cases hpref : strStartsWith p.1 "productImage_" = true
    · cases hts2 : p.2.timestamp with
      | none => simp [specExpired, hpref, tsTruthy, hts2]
      | some t =>
        have hpos : 0 < t := by
          have := hts p hp hpref
          rw [hts2] at this
          simpa [tsPos] using this
        have hne : (t != 0) = true := by
          simp only [bne_iff_ne, ne_eq]
          omega
        simp [specExpired, hpref, tsTruthy, hts2, hne]
    · have hpf : strStartsWith p.1 "productImage_" = false := by
        simpa using hpref
      simp [specExpired, hpf]
  have hmemks : ∀ p : String × StoredVal, p ∈ st →
      ((strStartsWith p.1 "productImage_" && tsTruthy p.2.timestamp &&
        decide (now - p.2.timestamp.getD 0 > maxAge)) = true →
        p.1 ∈ cleanupKeysToRemove st now maxAge) := by
    intro p hp hqp
    exact List.mem_map_of_mem Prod.fst (List.mem_filter.mpr ⟨hp, hqp⟩)
  have hcleq : cleanupOldCachedImages false st now maxAge =
      (if (cleanupKeysToRemove st now maxAge).length > 0
       then storageRemove st (cleanupKeysToRemove st now maxAge)
       else st) := by
    by_cases hc : (cleanupKeysToRemove st now maxAge).length > 0 <;>
      simp [cleanupOldCachedImages, cleanupOldCachedImagesTry, storageGetAllE,
        storageRemoveE, hc, Bind.bind, Except.bind, Pure.pure, Except.pure]
  have hmain : cleanupOldCachedImages false st now maxAge =
      st.filter (fun p => !(specExpired now maxAge p)) := by
    rw [hcleq]
    by_cases hlen : (cleanupKeysToRemove st now maxAge).length > 0
    · rw [if_pos hlen]
      have hcontains : ∀ p ∈ st,
          ((cleanupKeysToRemove st now maxAge).contains p.1) =
            specExpired now maxAge p := by
        intro p hp
        by_cases hs : specExpired now maxAge p = true
        · rw [hs]
          have hqp : (strStartsWith p.1 "productImage_" &&
              tsTruthy p.2.timestamp &&
              decide (now - p.2.timestamp.getD 0 > maxAge)) = true := by
            rw [hqspec p hp]; exact hs
          simpa using hmemks p hp hqp
        · have hs2 : specExpired now maxAge p = false := by simpa using hs
          rw [hs2]
          cases hcc : ((cleanupKeysToRemove st now maxAge).contains p.1) with
          | false => rfl
          | true =>
            exfalso
            have hc2 : p.1 ∈ cleanupKeysToRemove st now maxAge := by
              simpa using hcc
            obtain ⟨p2, hp2mem, hp2key⟩ := List.mem_map.mp hc2
            have hp2st := (List.mem_filter.mp hp2mem).1
            have hp2q := (List.mem_filter.mp hp2mem).2
            have hpeq : p2 = p :=
              List.inj_on_of_nodup_map hnodup hp2st hp hp2key
            rw [hpeq, hqspec p hp, hs2] at hp2q
            exact Bool.noConfusion hp2q
      unfold storageRemove
      apply List.filter_congr
      intro p hp
      rw [hcontains p hp]
    · rw [if_neg hlen]
      have hnil : st.filter (fun p =>
          strStartsWith p.1 "productImage_" && tsTruthy p.2.timestamp &&
            decide (now - p.2.timestamp.getD 0 > maxAge)) = [] := by
        have hz : (cleanupKeysToRemove st now maxAge).length = 0 := by omega
        have := List.eq_nil_of_length_eq_zero hz
        exact List.map_eq_nil_iff.mp this
      symm
      apply List.filter_eq_self.mpr
      intro p hp
      have hq : (strStartsWith p.1 "productImage_" &&
          tsTruthy p.2.timestamp &&
          decide (now - p.2.timestamp.getD 0 > maxAge)) = false := by
        have := List.filter_eq_nil_iff.mp hnil p hp
        simpa using this
      rw [← hqspec p hp]
      simp [hq]
  refine ⟨hmain, ?_, rfl, by decide, by decide, rfl⟩
  intro p hp t hts2 hbound
  rw [hmain]
  apply List.mem_filter.mpr
  refine ⟨hp, ?_⟩
  have : specExpired now maxAge p = false := by
    simp only [specExpired, hts2]
    have : ¬ (now - t > maxAge) := by omega
    simp [this]
  simp [this]

/-- Claim C7, witness: at call time 1000 with max age 500, the stale
entry (age 900) is removed while the boundary entry (age exactly 500),
the fresh entry and the unrelated key are retained. -/
theorem cleanup_expiry_exact_witness :
    cleanupOldCachedImages false sweepStore 1000 500 =
      sweepStore.filter (fun p => !(specExpired 1000 500 p)) :=
  (cleanup_expiry_exact sweepStore 1000 500 (by decide) (by decide)).1

/-- Claim C8: the result image of a remote response is resolved in a
fixed priority order: (a) a non-empty structured images field whose
first entry has a data URL is used directly (no fetch), and an http URL
is fetched and converted; (b) only when the structured branch yields no
image (images absent or empty, first entry without a URL, or a URL with
neither marker) is the free text scanned and its first URL-like match
fetched; (c) with no match either, the call rejects with the no-image
message. -/
theorem response_parsing_priority (env : Env) (s : RunState)
    (resp : ApiResponse) (failMsg : String) :
    (∀ u rest, resp.images = ⟨some u⟩ :: rest →
      strStartsWith u "data:" = true →
      resolveResponseImage env s resp failMsg = (Except.ok u, s)) ∧
    (∀ u rest, resp.images = ⟨some u⟩ :: rest →
      strStartsWith u "data:" = false → strStartsWith u "http" = true →
      resolveResponseImage env s resp failMsg =
        (env.fetch u, { s with trace := s.trace ++ [Event.fetch u] })) ∧
    ((resp.images = [] ∨ (∃ rest, resp.images = ⟨none⟩ :: rest) ∨
      (∃ u rest, resp.images = ⟨some u⟩ :: rest ∧
        strStartsWith u "data:" = false ∧ strStartsWith u "http" = false)) →
      (∀ v, firstUrlMatch resp.content = some v →
        resolveResponseImage env s resp failMsg =
          (env.fetch v, { s with trace := s.trace ++ [Event.fetch v] })) ∧
      (firstUrlMatch resp.content = none →
        resolveResponseImage env s resp failMsg =
          (Except.error failMsg, s))) := by
  refine ⟨?_, ?_, ?_⟩
  · intro u rest himg hdata
    simp [resolveResponseImage, himg, hdata]
  · intro u rest himg hdata hhttp
    simp [resolveResponseImage, himg, hdata, hhttp, convertUrlToBase64]
  · intro hcase
    have htext : resolveResponseImage env s resp failMsg =
        resolveFromText env s resp.content failMsg := by
      rcases hcase with h0 | ⟨rest, h1⟩ | ⟨u, rest, h2, hd, hh⟩
      · simp [resolveResponseImage, h0]
      · simp [resolveResponseImage, h1]
      · simp [resolveResponseImage, h2, hd, hh]
    constructor
    · intro v hv
      rw [htext]
      simp [resolveFromText, hv, convertUrlToBase64]
    · intro hv
      rw [htext]
      simp [resolveFromText, hv]

/-- Claim C8, witness: a structured data-URL response resolves directly
and a response with neither a structured image nor a URL in its text
rejects. -/
theorem response_parsing_priority_witness :
    resolveResponseImage demoEnv (mkState []) respDataImage "no image" =
      (Except.ok "data:gen", mkState []) ∧
    resolveResponseImage demoEnv (mkState []) respNoImageAtAll "no image" =
      (Except.error "no image", mkState []) :=
  ⟨(response_parsing_priority demoEnv (mkState []) respDataImage
      "no image").1 "data:gen" [] rfl (by decide),
   ((response_parsing_priority demoEnv (mkState []) respNoImageAtAll
      "no image").2.2 (Or.inl rfl)).2 (by decide)⟩

/-- Claim C9: with an empty products list, generateOutfitImage issues
zero synthesis calls (the trace gains only the one base-photo fetch and
the call counter is untouched in the returned state) and resolves with
exactly the base photo converted to a data URL by the fetcher. -/
theorem generate_empty_products (env : Env) (s : RunState)
    (apiKey base b : String)
    (hk : ¬ apiKey = "") (hfetch : env.fetch base = Except.ok b)
    (hstore : s.failing = false) :
    generateOutfitImage env s apiKey base [] =
      (Except.ok b, { s with trace := s.trace ++ [Event.fetch base] }) := by
  simp [generateOutfitImage, convertUrlToBase64, generateOutfitLoop,
    getCacheInfo, storageGetAllE, hfetch, hk, hstore, Bind.bind, Except.bind,
    Pure.pure, Except.pure]

/-- Claim C9, witness: a concrete empty-products run returns the
converted base photo, with a trace showing one fetch and no synthesis
call. -/
theorem generate_empty_products_witness :
    generateOutfitImage demoEnv (mkState []) "key" "base.png" [] =
      (Except.ok ("data:image/png;base64," ++ "base.png"),
       { mkState [] with trace := [] ++ [Event.fetch "base.png"] }) :=
  generate_empty_products demoEnv (mkState []) "key" "base.png"
    ("data:image/png;base64," ++ "base.png") (by decide) rfl rfl

theorem truthy_of_dataString (v : JsVal) (h : jsIsDataString v = true) :
    v.truthy = true := by
  cases v with
  | str s =>
    simp only [jsIsDataString, strStartsWith] at h
    have hd : s.data.take ("data:".data.length) = "data:".data := by
      simpa using h
    have hne : s ≠ "" := by
      intro he
      rw [he] at hd
      exact absurd hd (by decide)
    simpa [JsVal.truthy] using hne
  | undef => simp [jsIsDataString] at h
  | null => simp [jsIsDataString] at h
  | bool b => simp [jsIsDataString] at h
  | num n => simp [jsIsDataString] at h

theorem getCachedProductImageS_failing (s : RunState) (url : String) :
    ((getCachedProductImageS s url).2).failing = s.failing := rfl

theorem convert_failing (env : Env) (s : RunState) (u : String) :
    ((convertUrlToBase64 env s u).2).failing = s.failing := rfl

theorem callApi_failing (env : Env) (s : RunState) (atts : List String) :
    ((callApi env s atts).2).failing = s.failing := rfl

theorem getCachedProductImageS_eq (s : RunState) (url : String)
    (hfail : s.failing = false) :
    getCachedProductImageS s url =
      ((getCachedProductImage false s.store url).1,
       { s with store := (getCachedProductImage false s.store url).2 }) := by
  simp [getCachedProductImageS, hfail]

theorem cacheProductImageS_ok (s : RunState) (url img : String)
    (hfail : s.failing = false) :
    cacheProductImageS s url img =
      { s with
          store := storageSet s.store (cacheKey url) (cacheEntry img s.now url),
          trace := s.trace ++ [Event.cachePut (cacheKey url) img] } := by
  simp [cacheProductImageS, cacheProductImageTry, storageSetE, hfail]

theorem cacheProductImageS_failing (s : RunState) (url img : String) :
    (cacheProductImageS s url img).failing = s.failing := by
  simp only [cacheProductImageS]
  cases h : cacheProductImageTry s.failing s.store url img s.now <;> simp [h]

theorem resolveFromText_failing (env : Env) (s : RunState)
    (content m : String) :
    ((resolveFromText env s content m).2).failing = s.failing := by
  unfold resolveFromText
  cases firstUrlMatch content <;> rfl

theorem resolve_failing (env : Env) (s : RunState) (resp : ApiResponse)
    (m : String) :
    ((resolveResponseImage env s resp m).2).failing = s.failing := by
  obtain ⟨rok, rstatus, rerr, rimgs, rcontent⟩ := resp
  unfold resolveResponseImage
  cases rimgs with
  | nil => exact resolveFromText_failing env s rcontent m
  | cons g rest =>
    obtain ⟨gu⟩ := g
    cases gu with
    | none => exact resolveFromText_failing env s rcontent m
    | some u =>
      by_cases hd : strStartsWith u "data:" = true
      · simp [hd]
      · by_cases hh : strStartsWith u "http" = true
        · simp [hd, hh, convertUrlToBase64]
        · simp only [hd, hh, Bool.false_eq_true, if_false]
          exact resolveFromText_failing env s rcontent m

theorem resolveFromText_ok_data (env : Env) (s : RunState)
    (content m img : String) (s2 : RunState)
    (hdata : ∀ u r, env.fetch u = Except.ok r →
      strStartsWith r "data:" = true)
    (hok : resolveFromText env s content m = (Except.ok img, s2)) :
    strStartsWith img "data:" = true := by
  unfold resolveFromText at hok
  cases hm : firstUrlMatch content with
  | none => rw [hm] at hok; simp at hok
  | some v =>
    rw [hm] at hok
    simp only [convertUrlToBase64] at hok
    have hf : env.fetch v = Except.ok img := by
      have := congrArg Prod.fst hok
      simpa using this
    exact hdata v img hf

theorem resolve_ok_data (env : Env) (s : RunState) (resp : ApiResponse)
    (m img : String) (s2 : RunState)
    (hdata : ∀ u r, env.fetch u = Except.ok r →
      strStartsWith r "data:" = true)
    (hok : resolveResponseImage env s resp m = (Except.ok img, s2)) :
    strStartsWith img "data:" = true := by
  unfold resolveResponseImage at hok
  cases hi : resp.images with
  | nil =>
    simp only [hi] at hok
    exact resolveFromText_ok_data env s resp.content m img s2 hdata hok
  | cons g rest =>
    simp only [hi] at hok
    cases hu : g.url with
    | none =>
      simp only [hu] at hok
      exact resolveFromText_ok_data env s resp.content m img s2 hdata hok
    | some u =>
      simp only [hu] at hok
      by_cases hd : strStartsWith u "data:" = true
      · rw [if_pos hd] at hok
        have hui : u = img := by
          have := congrArg Prod.fst hok
          simpa using this
        rw [← hui]
        exact hd
      · rw [if_neg (fun hx => hd hx)] at hok
        by_cases hh : strStartsWith u "http" = true
        · rw [if_pos hh] at hok
          simp only [convertUrlToBase64] at hok
          have hf : env.fetch u = Except.ok img := by
            have := congrArg Prod.fst hok
            simpa using this
          exact hdata u img hf
        · rw [if_neg (fun hx => hh hx)] at hok
          exact resolveFromText_ok_data env s resp.content m img s2 hdata hok

/-- On healthy storage, a lookup that produced a hit came from a
validated entry and left storage untouched. -/
theorem getCachedProductImage_hit (st : Storage) (url : String)
    (v : StoredVal) (st2 : Storage)
    (hres : getCachedProductImage false st url = (some v, st2)) :
    storageGet st (cacheKey url) = some v ∧
      jsIsDataString v.image = true ∧ st2 = st := by
  rw [getCachedProductImage_eq] at hres
  cases hg : storageGet st (cacheKey url) with
  | none => rw [hg] at hres; simp at hres
  | some w =>
    rw [hg] at hres
    by_cases ht : w.image.truthy = true
    · by_cases hd : jsIsDataString w.image = true
      · simp only [ht, hd, if_true] at hres
        have hw : w = v := by
          have := congrArg Prod.fst hres
          simpa using this
        have hst : st = st2 := by
          have := congrArg Prod.snd hres
          simpa using this
        subst hw
        subst hst
        exact ⟨rfl, hd, rfl⟩
      · simp [ht, hd] at hres
    · simp [ht] at hres

/-- A warm, validated cache entry makes extraction return the cached
payload immediately, with no state change at all (no fetch, no
synthesis call, no write). -/
theorem extract_cache_hit (env : Env) (s : RunState)
    (apiKey url name : String) (v : StoredVal)
    (hfail : s.failing = false)
    (hget : storageGet s.store (cacheKey url) = some v)
    (hvalid : jsIsDataString v.image = true) :
    extractActualProductImage env s apiKey url name =
      (Except.ok v.image.strVal, s) := by
  have ht := truthy_of_dataString v.image hvalid
  obtain ⟨sf, sst, snow, sapi, strc⟩ := s
  simp only [RunState.failing] at hfail
  subst hfail
  simp only [RunState.store] at hget
  simp [extractActualProductImage, getCachedProductImageS,
    getCachedProductImage_eq, hget, hvalid, ht, cacheHitImage]

theorem resolveFromText_store (env : Env) (s : RunState) (content m : String) :
    ((resolveFromText env s content m).2).store = s.store := by
  unfold resolveFromText
  cases firstUrlMatch content <;> rfl

theorem resolve_store (env : Env) (s : RunState) (resp : ApiResponse)
    (m : String) :
    ((resolveResponseImage env s resp m).2).store = s.store := by
  obtain ⟨rok, rstatus, rerr, rimgs, rcontent⟩ := resp
  unfold resolveResponseImage
  cases rimgs with
  | nil => exact resolveFromText_store env s rcontent m
  | cons g rest =>
    obtain ⟨gu⟩ := g
    cases gu with
    | none => exact resolveFromText_store env s rcontent m
    | some u =>
      by_cases hd : strStartsWith u "data:" = true
      · simp [hd]
      · by_cases hh : strStartsWith u "http" = true
        · simp [hd, hh, convertUrlToBase64]
        · simp only [hd, hh, Bool.false_eq_true, if_false]
          exact resolveFromText_store env s rcontent m

theorem resolveFromText_trace (env : Env) (s : RunState) (content m : String) :
    ∃ t, ((resolveFromText env s content m).2).trace = s.trace ++ t := by
  unfold resolveFromText
  cases firstUrlMatch content with
  | some u => exact ⟨[Event.fetch u], rfl⟩
  | none => exact ⟨[], by simp⟩

theorem resolve_trace (env : Env) (s : RunState) (resp : ApiResponse)
    (m : String) :
    ∃ t, ((resolveResponseImage env s resp m).2).trace = s.trace ++ t := by
  obtain ⟨rok, rstatus, rerr, rimgs, rcontent⟩ := resp
  unfold resolveResponseImage
  cases rimgs with
  | nil => exact resolveFromText_trace env s rcontent m
  | cons g rest =>
    obtain ⟨gu⟩ := g
    cases gu with
    | none => exact resolveFromText_trace env s rcontent m
    | some u =>
      by_cases hd : strStartsWith u "data:" = true
      · refine ⟨[], ?_⟩
        simp [hd]
      · by_cases hh : strStartsWith u "http" = true
        · refine ⟨[Event.fetch u], ?_⟩
          simp [hd, hh, convertUrlToBase64]
        · simp only [hd, hh, Bool.false_eq_true, if_false]
          exact resolveFromText_trace env s rcontent m

theorem cacheProductImageS_trace (s : RunState) (url img : String) :
    ∃ t, (cacheProductImageS s url img).trace = s.trace ++ t := by
  simp only [cacheProductImageS]
  cases h : cacheProductImageTry s.failing s.store url img s.now with
  | error e => exact ⟨[], by simp [h]⟩
  | ok st2 => exact ⟨[Event.cachePut (cacheKey url) img], by simp [h]⟩

theorem dataString_strVal (v : JsVal) (h : jsIsDataString v = true) :
    v = JsVal.str v.strVal := by
  cases v <;> simp [jsIsDataString, JsVal.strVal] at h ⊢

/-- A successful extraction leaves a validated cache entry for the URL
whose payload is exactly the returned image, and keeps the storage
layer healthy. -/
theorem extract_ok_cache_valid (env : Env) (s s2 : RunState)
    (apiKey url name img : String)
    (hfail : s.failing = false)
    (hdata : ∀ u r, env.fetch u = Except.ok r →
      strStartsWith r "data:" = true)
    (hok : extractActualProductImage env s apiKey url name =
      (Except.ok img, s2)) :
    s2.failing = false ∧
    ∃ v : StoredVal, storageGet s2.store (cacheKey url) = some v ∧
      jsIsDataString v.image = true ∧ v.image.strVal = img := by
  simp only [extractActualProductImage] at hok
  cases hc : cacheHitImage (getCachedProductImageS s url).1 with
  | some i =>
    simp only [hc] at hok
    have hi : i = img := by
      have := congrArg Prod.fst hok
      simpa using this
    have hs : (getCachedProductImageS s url).2 = s2 := by
      have := congrArg Prod.snd hok
      simpa using this
    rw [getCachedProductImageS_eq s url hfail] at hc hs
    cases ho : (getCachedProductImage false s.store url).1 with
    | none => rw [ho] at hc; simp [cacheHitImage] at hc
    | some v =>
      rw [ho] at hc
      by_cases ht : v.image.truthy = true
      · simp only [cacheHitImage, ht, if_true] at hc
        have hstrv : v.image.strVal = i := by simpa using hc
        have hres : getCachedProductImage false s.store url =
            (some v, (getCachedProductImage false s.store url).2) := by
          rw [← ho]
        obtain ⟨hg, hvalid, hsteq⟩ :=
          getCachedProductImage_hit s.store url v _ hres
        rw [hsteq] at hs
        have hs2 : s = s2 := hs
        subst hs2
        exact ⟨hfail, v, hg, hvalid, hstrv.trans hi⟩
      · simp [cacheHitImage, ht] at hc
  | none =>
    simp only [hc] at hok
    cases hfr : (convertUrlToBase64 env (getCachedProductImageS s url).2
        url).1 with
    | error e => simp only [hfr] at hok; simp at hok
    | ok raw =>
      simp only [hfr] at hok
      by_cases hko : (callApi env
          (cacheProductImageS ((convertUrlToBase64 env
            (getCachedProductImageS s url).2 url).2) url raw) [raw]).1.ok =
          false
      · rw [if_pos hko] at hok
        simp at hok
      · rw [if_neg hko] at hok
        cases hrr : (resolveResponseImage env
            ((callApi env (cacheProductImageS ((convertUrlToBase64 env
              (getCachedProductImageS s url).2 url).2) url raw) [raw]).2)
            ((callApi env (cacheProductImageS ((convertUrlToBase64 env
              (getCachedProductImageS s url).2 url).2) url raw) [raw]).1)
            ("Failed to extract product image for " ++ name)).1 with
        | error e => simp only [hrr] at hok; simp at hok
        | ok i =>
          simp only [hrr] at hok
          have hi : i = img := by
            have := congrArg Prod.fst hok
            simpa using this
          have hcf : ((getCachedProductImageS s url).2).failing = false :=
            (getCachedProductImageS_failing s url).trans hfail
          have hff : (((convertUrlToBase64 env
              (getCachedProductImageS s url).2 url).2)).failing = false :=
            (convert_failing env _ url).trans hcf
          have h3f : ((cacheProductImageS ((convertUrlToBase64 env
              (getCachedProductImageS s url).2 url).2) url raw)).failing =
              false :=
            (cacheProductImageS_failing _ url raw).trans hff
          have haf : (((callApi env (cacheProductImageS ((convertUrlToBase64
              env (getCachedProductImageS s url).2 url).2) url raw)
              [raw]).2)).failing = false :=
            (callApi_failing env _ [raw]).trans h3f
          have hrf : (((resolveResponseImage env
              ((callApi env (cacheProductImageS ((convertUrlToBase64 env
                (getCachedProductImageS s url).2 url).2) url raw) [raw]).2)
              ((callApi env (cacheProductImageS ((convertUrlToBase64 env
                (getCachedProductImageS s url).2 url).2) url raw) [raw]).1)
              ("Failed to extract product image for " ++ name)).2)).failing =
              false :=
            (resolve_failing env _ _ _).trans haf
          have hdata_i : strStartsWith i "data:" = true := by
            apply resolve_ok_data env _ _
              ("Failed to extract product image for " ++ name) i _ hdata
            rw [← hrr]
          have hs2 : cacheProductImageS (((resolveResponseImage env
              ((callApi env (cacheProductImageS ((convertUrlToBase64 env
                (getCachedProductImageS s url).2 url).2) url raw) [raw]).2)
              ((callApi env (cacheProductImageS ((convertUrlToBase64 env
                (getCachedProductImageS s url).2 url).2) url raw) [raw]).1)
              ("Failed to extract product image for " ++ name)).2)) url i =
              s2 := by
            have := congrArg Prod.snd hok
            simpa using this
          rw [cacheProductImageS_ok _ url i hrf] at hs2
          subst hs2
          refine ⟨hrf, cacheEntry i (((resolveResponseImage env
              ((callApi env (cacheProductImageS ((convertUrlToBase64 env
                (getCachedProductImageS s url).2 url).2) url raw) [raw]).2)
              ((callApi env (cacheProductImageS ((convertUrlToBase64 env
                (getCachedProductImageS s url).2 url).2) url raw) [raw]).1)
              ("Failed to extract product image for " ++ name)).2)).now url,
            ?_, ?_, ?_⟩
          · exact storageGet_set_self _ (cacheKey url) _
          · simpa [cacheEntry, jsIsDataString] using hdata_i
          · simp [cacheEntry, JsVal.strVal, hi]

/-- Claim C5: warm-cache idempotence of extraction.  If a first call
succeeded from healthy storage (so the cache now holds a validated
payload for the URL), a second call with the same source image URL
returns the same payload with the state COMPLETELY unchanged: no event
is appended to the trace and the synthesis-call counter stays put, so
zero additional remote synthesis calls (and zero fetches) are issued. -/
theorem extract_warm_cache_idempotent (env : Env) (s s2 : RunState)
    (apiKey url name img : String)
    (hfail : s.failing = false)
    (hdata : ∀ u r, env.fetch u = Except.ok r →
      strStartsWith r "data:" = true)
    (hok : extractActualProductImage env s apiKey url name =
      (Except.ok img, s2)) :
    extractActualProductImage env s2 apiKey url name =
      (Except.ok img, s2) := by
  obtain ⟨hf2, v, hget, hvalid, hstr⟩ :=
    extract_ok_cache_valid env s s2 apiKey url name img hfail hdata hok
  rw [← hstr]
  exact extract_cache_hit env s2 apiKey url name v hf2 hget hvalid

/-- Claim C5, witness: after one successful extraction run for URL u,
calling extraction again returns the same payload and leaves the run
state (trace and synthesis-call counter included) untouched. -/
theorem extract_warm_cache_idempotent_witness :
    extractActualProductImage demoEnv
        (extractActualProductImage demoEnv (mkState []) "k" "u" "shirt").2
        "k" "u" "shirt" =
      (Except.ok "data:gen",
       (extractActualProductImage demoEnv (mkState []) "k" "u" "shirt").2) :=
  extract_warm_cache_idempotent demoEnv (mkState [])
    (extractActualProductImage demoEnv (mkState []) "k" "u" "shirt").2
    "k" "u" "shirt" "data:gen" rfl
    (by
      intro u r h
      simp only [demoEnv] at h
      injection h with h2
      subst h2
      simp only [strStartsWith, String.data_append]
      rw [List.take_append_of_le_length (by decide)]
      decide)
    (by rfl)

/-- On a cache miss with a successful raw fetch, extraction reduces to
the raw-caching, synthesis and resolution tail. -/
theorem extract_miss_unfold (env : Env) (s : RunState)
    (apiKey url name raw : String)
    (hmiss : cacheHitImage (getCachedProductImageS s url).1 = none)
    (hraw : env.fetch url = Except.ok raw) :
    extractActualProductImage env s apiKey url name =
      (let s3 := cacheProductImageS
          { (getCachedProductImageS s url).2 with
              trace := ((getCachedProductImageS s url).2).trace ++
                [Event.fetch url] } url raw
       let a := callApi env s3 [raw]
       if a.1.ok = false then
         (Except.error ("Failed to extract product image for " ++ name ++
           ": " ++ toString a.1.status ++ " " ++ a.1.errText), a.2)
       else
         let r := resolveResponseImage env a.2 a.1
           ("Failed to extract product image for " ++ name)
         match r.1 with
         | Except.error e => (Except.error e, r.2)
         | Except.ok img => (Except.ok img, cacheProductImageS r.2 url img)) := by
  simp only [extractActualProductImage, hmiss, convertUrlToBase64, hraw]

/-- Claim C6: on a cache miss, extraction first stores the raw fetched
payload under the source URL key and only then issues the synthesis
call (the event trace begins fetch, cachePut raw, synth); on success
the entry under the same key ends up holding exactly the returned
extracted payload, superseding the raw one; and after a failed
extraction (any rejection past the raw fetch) a retry returns the
cached raw payload with no further fetch and no state change at all. -/
theorem extract_cache_order (env : Env) (s : RunState)
    (apiKey url name raw : String)
    (hfail : s.failing = false)
    (hmiss : cacheHitImage (getCachedProductImageS s url).1 = none)
    (hraw : env.fetch url = Except.ok raw)
    (hdata : ∀ u r, env.fetch u = Except.ok r →
      strStartsWith r "data:" = true) :
    (∃ tr, ((extractActualProductImage env s apiKey url name).2).trace =
      s.trace ++ [Event.fetch url, Event.cachePut (cacheKey url) raw,
        Event.synth [raw]] ++ tr) ∧
    (∀ img s2, extractActualProductImage env s apiKey url name =
        (Except.ok img, s2) →
      ∃ v, storageGet s2.store (cacheKey url) = some v ∧
        v.image = JsVal.str img) ∧
    (∀ e s2, extractActualProductImage env s apiKey url name =
        (Except.error e, s2) →
      extractActualProductImage env s2 apiKey url name =
        (Except.ok raw, s2)) := by
  have heq := extract_miss_unfold env s apiKey url name raw hmiss hraw
  have hc2f : ((getCachedProductImageS s url).2).failing = false :=
    (getCachedProductImageS_failing s url).trans hfail
  have hc2t : ((getCachedProductImageS s url).2).trace = s.trace := rfl
  have hfsf : ({ (getCachedProductImageS s url).2 with
      trace := ((getCachedProductImageS s url).2).trace ++
        [Event.fetch url] } : RunState).failing = false := hc2f
  have h3 := cacheProductImageS_ok
    { (getCachedProductImageS s url).2 with
        trace := ((getCachedProductImageS s url).2).trace ++
          [Event.fetch url] } url raw hfsf
  rw [h3] at heq
  have hrawdata : strStartsWith raw "data:" = true := hdata url raw hraw
  -- the state after the raw write and the synthesis call
  set s3 : RunState :=
    { (getCachedProductImageS s url).2 with
        store := storageSet ((getCachedProductImageS s url).2).store
          (cacheKey url)
          (cacheEntry raw ((getCachedProductImageS s url).2).now url),
        trace := (((getCachedProductImageS s url).2).trace ++
          [Event.fetch url]) ++
          [Event.cachePut (cacheKey url) raw] } with hs3def
  have h3t : s3.trace = s.trace ++
      [Event.fetch url, Event.cachePut (cacheKey url) raw] := by
    rw [hs3def]
    simp [hc2t]
  have h3f : s3.failing = false := hc2f
  have h3get : storageGet s3.store (cacheKey url) =
      some (cacheEntry raw ((getCachedProductImageS s url).2).now url) :=
    storageGet_set_self _ _ _
  by_cases hko : (callApi env s3 [raw]).1.ok = false
  · -- synthesis rejected: the run errors at a.2
    rw [if_pos hko] at heq
    have hs2 : (extractActualProductImage env s apiKey url name).2 =
        (callApi env s3 [raw]).2 := by rw [heq]
    refine ⟨⟨[], ?_⟩, ?_, ?_⟩
    · rw [hs2]
      show s3.trace ++ [Event.synth [raw]] = _
      rw [h3t]
      simp
    · intro img s2 habs
      rw [heq] at habs
      simp at habs
    · intro e s2 herr
      rw [heq] at herr
      have hseq : (callApi env s3 [raw]).2 = s2 := by
        have := congrArg Prod.snd herr
        simpa using this
      rw [← hseq]
      have hget2 : storageGet ((callApi env s3 [raw]).2).store
          (cacheKey url) =
          some (cacheEntry raw ((getCachedProductImageS s url).2).now url) :=
        h3get
      have hf2 : ((callApi env s3 [raw]).2).failing = false := h3f
      have := extract_cache_hit env ((callApi env s3 [raw]).2) apiKey url
        name (cacheEntry raw ((getCachedProductImageS s url).2).now url)
        hf2 hget2 (by simpa [cacheEntry, jsIsDataString] using hrawdata)
      simpa [cacheEntry, JsVal.strVal] using this
  · rw [if_neg hko] at heq
    simp only [] at heq
    have haf : ((callApi env s3 [raw]).2).failing = false := h3f
    have hat : ((callApi env s3 [raw]).2).trace =
        s3.trace ++ [Event.synth [raw]] := rfl
    have hast : ((callApi env s3 [raw]).2).store = s3.store := rfl
    obtain ⟨t1, ht1⟩ := resolve_trace env ((callApi env s3 [raw]).2)
      ((callApi env s3 [raw]).1)
      ("Failed to extract product image for " ++ name)
    have hrstore := resolve_store env ((callApi env s3 [raw]).2)
      ((callApi env s3 [raw]).1)
      ("Failed to extract product image for " ++ name)
    have hrfail : ((resolveResponseImage env ((callApi env s3 [raw]).2)
        ((callApi env s3 [raw]).1)
        ("Failed to extract product image for " ++ name)).2).failing =
        false :=
      (resolve_failing env _ _ _).trans haf
    cases hrr : (resolveResponseImage env ((callApi env s3 [raw]).2)
        ((callApi env s3 [raw]).1)
        ("Failed to extract product image for " ++ name)).1 with
    | error e0 =>
      rw [hrr] at heq
      refine ⟨⟨t1, ?_⟩, ?_, ?_⟩
      · rw [heq]
        show ((resolveResponseImage env ((callApi env s3 [raw]).2)
          ((callApi env s3 [raw]).1)
          ("Failed to extract product image for " ++ name)).2).trace = _
        rw [ht1, hat, h3t]
        simp
      · intro img s2 habs
        rw [heq] at habs
        simp at habs
      · intro e s2 herr
        rw [heq] at herr
        have hseq : (resolveResponseImage env ((callApi env s3 [raw]).2)
            ((callApi env s3 [raw]).1)
            ("Failed to extract product image for " ++ name)).2 = s2 := by
          have := congrArg Prod.snd herr
          simpa using this
        rw [← hseq]
        have hget2 : storageGet ((resolveResponseImage env
            ((callApi env s3 [raw]).2) ((callApi env s3 [raw]).1)
            ("Failed to extract product image for " ++ name)).2).store
            (cacheKey url) =
            some (cacheEntry raw ((getCachedProductImageS s url).2).now
              url) := by
          rw [hrstore, hast]
          exact h3get
        have := extract_cache_hit env _ apiKey url name
          (cacheEntry raw ((getCachedProductImageS s url).2).now url)
          hrfail hget2 (by simpa [cacheEntry, jsIsDataString] using hrawdata)
        simpa [cacheEntry, JsVal.strVal] using this
    | ok i =>
      rw [hrr] at heq
      obtain ⟨t2, ht2⟩ := cacheProductImageS_trace
        ((resolveResponseImage env ((callApi env s3 [raw]).2)
          ((callApi env s3 [raw]).1)
          ("Failed to extract product image for " ++ name)).2) url i
      refine ⟨⟨t1 ++ t2, ?_⟩, ?_, ?_⟩
      · rw [heq]
        show (cacheProductImageS ((resolveResponseImage env
          ((callApi env s3 [raw]).2) ((callApi env s3 [raw]).1)
          ("Failed to extract product image for " ++ name)).2) url i).trace
          = _
        rw [ht2, ht1, hat, h3t]
        simp
      · intro img s2 hokk
        obtain ⟨hf2, v, hget2, hvalid2, hstr2⟩ :=
          extract_ok_cache_valid env s s2 apiKey url name img hfail hdata
            hokk
        refine ⟨v, hget2, ?_⟩
        rw [← hstr2]
        exact dataString_strVal v.image hvalid2
      · intro e s2 herr
        rw [heq] at herr
        simp at herr

theorem demoEnv_data (u r : String) (h : demoEnv.fetch u = Except.ok r) :
    strStartsWith r "data:" = true := by
  simp only [demoEnv] at h
  injection h with h2
  subst h2
  simp only [strStartsWith, String.data_append]
  rw [List.take_append_of_le_length (by decide)]
  decide

/-- Claim C6, witness at a concrete cold-cache run: the trace starts
with the raw fetch, the raw cache write and only then the synthesis
call; a successful run leaves the extracted payload in the entry; a
failed run would leave the raw payload for an immediate retry. -/
theorem extract_cache_order_witness :
    (∃ tr, ((extractActualProductImage demoEnv (mkState []) "k" "u"
        "shirt").2).trace =
      (mkState []).trace ++ [Event.fetch "u",
        Event.cachePut (cacheKey "u") ("data:image/png;base64," ++ "u"),
        Event.synth [("data:image/png;base64," ++ "u")]] ++ tr) ∧
    (∀ img s2, extractActualProductImage demoEnv (mkState []) "k" "u"
        "shirt" = (Except.ok img, s2) →
      ∃ v, storageGet s2.store (cacheKey "u") = some v ∧
        v.image = JsVal.str img) ∧
    (∀ e s2, extractActualProductImage demoEnv (mkState []) "k" "u"
        "shirt" = (Except.error e, s2) →
      extractActualProductImage demoEnv s2 "k" "u" "shirt" =
        (Except.ok ("data:image/png;base64," ++ "u"), s2)) :=
  extract_cache_order demoEnv (mkState []) "k" "u" "shirt"
    ("data:image/png;base64," ++ "u") rfl rfl rfl demoEnv_data

/-- A response that resolves no image makes the parsing chain reject
with the no-image message, leaving the state unchanged. -/
theorem resolve_noImage (env : Env) (s : RunState) (resp : ApiResponse)
    (m : String) (h : respNoImage resp = true) :
    resolveResponseImage env s resp m = (Except.error m, s) := by
  obtain ⟨rok, rstatus, rerr, rimgs, rcontent⟩ := resp
  simp only [respNoImage, Bool.and_eq_true] at h
  obtain ⟨h1, h2⟩ := h
  have h2n : firstUrlMatch rcontent = none := by
    simpa [Option.isNone_iff_eq_none] using h2
  unfold resolveResponseImage resolveFromText
  cases rimgs with
  | nil => simp [h2n]
  | cons g rest =>
    obtain ⟨gu⟩ := g
    cases gu with
    | none => simp [h2n]
    | some u =>
      simp only [Bool.and_eq_true, Bool.not_eq_true'] at h1
      simp [h1.1, h1.2, h2n]

theorem extract_trace (env : Env) (s : RunState) (apiKey url name : String) :
    ∃ t, ((extractActualProductImage env s apiKey url name).2).trace =
      s.trace ++ t := by
  simp only [extractActualProductImage]
  have hc2t : ((getCachedProductImageS s url).2).trace = s.trace := rfl
  cases hc : cacheHitImage (getCachedProductImageS s url).1 with
  | some i =>
    simp only [hc]
    exact ⟨[], by simp [hc2t]⟩
  | none =>
    simp only [hc]
    have hft : ((convertUrlToBase64 env (getCachedProductImageS s url).2
        url).2).trace = s.trace ++ [Event.fetch url] := by
      show ((getCachedProductImageS s url).2).trace ++ [Event.fetch url] = _
      rw [hc2t]
    cases hf : (convertUrlToBase64 env (getCachedProductImageS s url).2
        url).1 with
    | error e =>
      simp only [hf]
      exact ⟨[Event.fetch url], hft⟩
    | ok raw =>
      simp only [hf]
      set f2 := (convertUrlToBase64 env (getCachedProductImageS s url).2
        url).2 with hf2def
      obtain ⟨t3, ht3⟩ := cacheProductImageS_trace f2 url raw
      set s3 := cacheProductImageS f2 url raw with hs3def
      have hat : ((callApi env s3 [raw]).2).trace =
          s3.trace ++ [Event.synth [raw]] := rfl
      by_cases hko : (callApi env s3 [raw]).1.ok = false
      · rw [if_pos hko]
        refine ⟨[Event.fetch url] ++ t3 ++ [Event.synth [raw]], ?_⟩
        rw [hat, ht3, hft]
        simp
      · rw [if_neg hko]
        obtain ⟨t4, ht4⟩ := resolve_trace env ((callApi env s3 [raw]).2)
          ((callApi env s3 [raw]).1)
          ("Failed to extract product image for " ++ name)
        cases hrr : (resolveResponseImage env ((callApi env s3 [raw]).2)
            ((callApi env s3 [raw]).1)
            ("Failed to extract product image for " ++ name)).1 with
        | error e =>
          simp only [hrr]
          refine ⟨[Event.fetch url] ++ t3 ++ [Event.synth [raw]] ++ t4, ?_⟩
          rw [ht4, hat, ht3, hft]
          simp
        | ok i =>
          simp only [hrr]
          obtain ⟨t5, ht5⟩ := cacheProductImageS_trace
            ((resolveResponseImage env ((callApi env s3 [raw]).2)
              ((callApi env s3 [raw]).1)
              ("Failed to extract product image for " ++ name)).2) url i
          refine ⟨[Event.fetch url] ++ t3 ++ [Event.synth [raw]] ++ t4 ++ t5,
            ?_⟩
          rw [ht5, ht4, hat, ht3, hft]
          simp

theorem generateStep1_trace (env : Env) (s : RunState) (apiKey : String)
    (p : Product) :
    ∃ t, ((generateStep1 env s apiKey p).2).trace = s.trace ++ t := by
  simp only [generateStep1]
  have hc2t : ((getCachedProductImageS s p.image).2).trace = s.trace := rfl
  cases hc : cacheHitImage (getCachedProductImageS s p.image).1 with
  | some i =>
    simp only [hc]
    exact ⟨[], by simp [hc2t]⟩
  | none =>
    simp only [hc]
    obtain ⟨t1, ht1⟩ := extract_trace env
      ((getCachedProductImageS s p.image).2) apiKey p.image p.name
    rw [hc2t] at ht1
    cases he : (extractActualProductImage env
        ((getCachedProductImageS s p.image).2) apiKey p.image p.name).1 with
    | ok a =>
      simp only [he]
      exact ⟨t1, ht1⟩
    | error e0 =>
      simp only [he]
      refine ⟨t1 ++ [Event.fetch p.image], ?_⟩
      show ((extractActualProductImage env
        ((getCachedProductImageS s p.image).2) apiKey p.image
          p.name).2).trace ++ [Event.fetch p.image] = _
      rw [ht1]
      simp

theorem composeStep_trace (env : Env) (p : Product)
    (current actual : String) (s : RunState) :
    ∃ t, ((composeStep env p current actual s).2).trace = s.trace ++ t := by
  simp only [composeStep]
  have hat : ((callApi env s [current, actual]).2).trace =
      s.trace ++ [Event.synth [current, actual]] := rfl
  by_cases hko : (callApi env s [current, actual]).1.ok = false
  · rw [if_pos hko]
    exact ⟨[Event.synth [current, actual]], hat⟩
  · rw [if_neg hko]
    obtain ⟨t1, ht1⟩ := resolve_trace env ((callApi env s
      [current, actual]).2) ((callApi env s [current, actual]).1)
      ("Failed to generate image for " ++ p.name)
    refine ⟨[Event.synth [current, actual]] ++ t1, ?_⟩
    rw [ht1, hat]
    simp

theorem loop_trace (env : Env) (apiKey : String) :
    ∀ (products : List Product) (current : String) (s : RunState),
    ∃ t, ((generateOutfitLoop env apiKey products current s).2).trace =
      s.trace ++ t := by
  intro products
  induction products with
  | nil =>
    intro current s
    exact ⟨[], by simp [generateOutfitLoop]⟩
  | cons p rest ih =>
    intro current s
    simp only [generateOutfitLoop]
    obtain ⟨t1, ht1⟩ := generateStep1_trace env s apiKey p
    cases h1 : (generateStep1 env s apiKey p).1 with
    | error e =>
      simp only [h1]
      exact ⟨t1, ht1⟩
    | ok actual =>
      simp only [h1]
      obtain ⟨t2, ht2⟩ := composeStep_trace env p current actual
        ((generateStep1 env s apiKey p).2)
      cases h2 : (composeStep env p current actual
          ((generateStep1 env s apiKey p).2)).1 with
      | error e =>
        simp only [h2]
        refine ⟨t1 ++ t2, ?_⟩
        rw [ht2, ht1]
        simp
      | ok next =>
        simp only [h2]
        obtain ⟨t3, ht3⟩ := ih next ((composeStep env p current actual
          ((generateStep1 env s apiKey p).2)).2)
        refine ⟨t1 ++ t2 ++ t3, ?_⟩
        rw [ht3, ht2, ht1]
        simp

/-- Claim C1: all-or-nothing composition.  First conjunct: when the run
reaches an item p (step 1 resolved an item image from state s with
result state s1) and the per-item composition call fails - remote
non-success status, or a response resolving no image payload and no URL
in its free text - the whole loop rejects with an error naming p, so the
partially composed image from the earlier items is never returned.
Second conjunct: a loop rejection is the rejection of
generateOutfitImage itself (given a provided API key and a successful
base-photo conversion), with the identical error value. -/
theorem outfit_all_or_nothing :
    (∀ (env : Env) (apiKey current : String) (p : Product)
        (rest : List Product) (s : RunState) (a : String) (s1 : RunState),
      generateStep1 env s apiKey p = (Except.ok a, s1) →
      ((env.api s1.apiCalls).ok = false ∨
        respNoImage (env.api s1.apiCalls) = true) →
      ∃ e s2, generateOutfitLoop env apiKey (p :: rest) current s =
          (Except.error e, s2) ∧
        ∃ pre post, e = pre ++ p.name ++ post) ∧
    (∀ (env : Env) (s : RunState) (apiKey base : String)
        (products : List Product) (b : String) (s1 : RunState) (e : String)
        (s2 : RunState),
      ¬ apiKey = "" →
      convertUrlToBase64 env s base = (Except.ok b, s1) →
      generateOutfitLoop env apiKey products b s1 = (Except.error e, s2) →
      generateOutfitImage env s apiKey base products =
        (Except.error e, s2)) := by
  constructor
  · intro env apiKey current p rest s a s1 hstep1 hfail
    by_cases hko : (env.api s1.apiCalls).ok = false
    · refine ⟨"OpenRouter API Error for " ++ p.name ++ ": " ++
        toString (env.api s1.apiCalls).status ++ " " ++
        (env.api s1.apiCalls).errText,
        (callApi env s1 [current, a]).2, ?_, "OpenRouter API Error for ",
        ": " ++ toString (env.api s1.apiCalls).status ++ " " ++
          (env.api s1.apiCalls).errText, ?_⟩
      · simp only [generateOutfitLoop, hstep1, composeStep, callApi, hko,
          if_true]
      · simp [String.append_assoc]
    · have hni : respNoImage (env.api s1.apiCalls) = true := by
        rcases hfail with h | h
        · exact absurd h hko
        · exact h
      refine ⟨"Failed to generate image for " ++ p.name,
        (callApi env s1 [current, a]).2, ?_,
        "Failed to generate image for ", "", ?_⟩
      · simp only [generateOutfitLoop, hstep1, composeStep, callApi]
        rw [if_neg hko]
        rw [resolve_noImage env _ _ _ hni]
      · simp
  · intro env s apiKey base products b s1 e s2 hk hconv hloop
    simp only [generateOutfitImage]
    rw [if_neg hk]
    have hf1 : (convertUrlToBase64 env s base).1 = Except.ok b := by
      rw [hconv]
    have hf2 : (convertUrlToBase64 env s base).2 = s1 := by
      rw [hconv]
    simp only [hf1, hf2, hloop]

/-- Claim C1, witness: with a remote service that accepts the
extraction call but rejects the composition call, the loop rejects with
an error naming the item, and generateOutfitImage rejects with the full
error message instead of returning the item-free base composite. -/
theorem outfit_all_or_nothing_witness :
    (∃ e s2,
      generateOutfitLoop envFailSecond "k" [redJacket] "data:cur"
          (mkState []) = (Except.error e, s2) ∧
        ∃ pre post, e = pre ++ redJacket.name ++ post) ∧
    generateOutfitImage envFailSecond (mkState []) "k" "base" [redJacket] =
      (Except.error "OpenRouter API Error for Red Jacket: 500 boom",
       (generateOutfitLoop envFailSecond "k" [redJacket]
         "data:image/png;base64,base"
         (convertUrlToBase64 envFailSecond (mkState []) "base").2).2) :=
  ⟨outfit_all_or_nothing.1 envFailSecond "k" "data:cur" redJacket []
      (mkState []) "data:gen"
      (generateStep1 envFailSecond (mkState []) "k" redJacket).2
      rfl (Or.inl rfl),
   outfit_all_or_nothing.2 envFailSecond (mkState []) "k" "base" [redJacket]
      "data:image/png;base64,base"
      (convertUrlToBase64 envFailSecond (mkState []) "base").2
      "OpenRouter API Error for Red Jacket: 500 boom"
      (generateOutfitLoop envFailSecond "k" [redJacket]
        "data:image/png;base64,base"
        (convertUrlToBase64 envFailSecond (mkState []) "base").2).2
      (by decide) rfl rfl⟩

/-- Claim C2: extraction-failure fallback.  First conjunct: when the
cache has no usable entry for item p, extraction rejects from state s1
with state s2, and a direct fetch of the item source image succeeds
with payload raw, the loop still performs the composition call for p
using the raw image: its trace continues with exactly the fallback
fetch of p.image followed by a synthesis call whose attachments are the
current outfit image and raw.  Second conjunct: generateOutfitImage
ends in the very state of the loop (given a provided API key and
successful base conversion), so the property transports to the whole
call. -/
theorem extraction_fallback_composes_raw :
    (∀ (env : Env) (apiKey current : String) (p : Product)
        (rest : List Product) (s : RunState) (cres : Option StoredVal)
        (s1 : RunState) (err : String) (s2 : RunState) (raw : String),
      getCachedProductImageS s p.image = (cres, s1) →
      cacheHitImage cres = none →
      extractActualProductImage env s1 apiKey p.image p.name =
        (Except.error err, s2) →
      env.fetch p.image = Except.ok raw →
      ∃ tr, ((generateOutfitLoop env apiKey (p :: rest) current s).2).trace =
        s2.trace ++ [Event.fetch p.image, Event.synth [current, raw]] ++ tr) ∧
    (∀ (env : Env) (s : RunState) (apiKey base : String)
        (products : List Product) (b : String) (s1 : RunState),
      ¬ apiKey = "" →
      convertUrlToBase64 env s base = (Except.ok b, s1) →
      (generateOutfitImage env s apiKey base products).2 =
        (generateOutfitLoop env apiKey products b s1).2) := by
  constructor
  · intro env apiKey current p rest s cres s1 err s2 raw hget hmiss hextract
      hraw
    have hc1 : (getCachedProductImageS s p.image).1 = cres := by rw [hget]
    have hc2 : (getCachedProductImageS s p.image).2 = s1 := by rw [hget]
    have hstep1 : generateStep1 env s apiKey p = (Except.ok raw,
        { s2 with trace := s2.trace ++ [Event.fetch p.image] }) := by
      simp only [generateStep1, hc1, hmiss, hc2, hextract,
        convertUrlToBase64, hraw]
    simp only [generateOutfitLoop, hstep1, composeStep]
    set sA : RunState :=
      { s2 with trace := s2.trace ++ [Event.fetch p.image] } with hsA
    have hcalltrace : ((callApi env sA [current, raw]).2).trace =
        s2.trace ++ [Event.fetch p.image, Event.synth [current, raw]] := by
      show sA.trace ++ [Event.synth [current, raw]] = _
      rw [hsA]
      simp
    by_cases hko : (callApi env sA [current, raw]).1.ok = false
    · rw [if_pos hko]
      exact ⟨[], by simp [hcalltrace]⟩
    · rw [if_neg hko]
      obtain ⟨t1, ht1⟩ := resolve_trace env (callApi env sA
        [current, raw]).2 (callApi env sA [current, raw]).1
        ("Failed to generate image for " ++ p.name)
      cases hrr : (resolveResponseImage env (callApi env sA
          [current, raw]).2 (callApi env sA [current, raw]).1
          ("Failed to generate image for " ++ p.name)).1 with
      | error e0 =>
        simp only [hrr]
        refine ⟨t1, ?_⟩
        rw [ht1, hcalltrace]
      | ok next =>
        simp only [hrr]
        obtain ⟨t2, ht2⟩ := loop_trace env apiKey rest next
          ((resolveResponseImage env (callApi env sA [current, raw]).2
            (callApi env sA [current, raw]).1
            ("Failed to generate image for " ++ p.name)).2)
        refine ⟨t1 ++ t2, ?_⟩
        rw [ht2, ht1, hcalltrace]
        simp
  · intro env s apiKey base products b s1 hk hconv
    simp only [generateOutfitImage]
    rw [if_neg hk]
    have hf1 : (convertUrlToBase64 env s base).1 = Except.ok b := by
      rw [hconv]
    have hf2 : (convertUrlToBase64 env s base).2 = s1 := by
      rw [hconv]
    simp only [hf1, hf2]
    cases hr : (generateOutfitLoop env apiKey products b s1).1 with
    | error e => simp [hr]
    | ok final =>
      simp only [hr]
      cases getCacheInfo ((generateOutfitLoop env apiKey products b
          s1).2).failing ((generateOutfitLoop env apiKey products b
          s1).2).store <;> simp

/-- Claim C2, witness: with the synthesis service down, extraction for
the item fails, yet the run falls back to the raw fetched image and
still issues the composition call carrying the current outfit image and
the raw payload. -/
theorem extraction_fallback_composes_raw_witness :
    (∃ tr, ((generateOutfitLoop envApiDown "k" [redJacket] "data:cur"
        (mkState [])).2).trace =
      ((extractActualProductImage envApiDown
          (getCachedProductImageS (mkState []) redJacket.image).2 "k"
          redJacket.image redJacket.name).2).trace ++
        [Event.fetch redJacket.image,
         Event.synth ["data:cur", "data:image/png;base64," ++ "u"]] ++ tr) ∧
    (generateOutfitImage envApiDown (mkState []) "k" "base"
        [redJacket]).2 =
      (generateOutfitLoop envApiDown "k" [redJacket]
        ("data:image/png;base64," ++ "base")
        (convertUrlToBase64 envApiDown (mkState []) "base").2).2 :=
  ⟨extraction_fallback_composes_raw.1 envApiDown "k" "data:cur" redJacket
      [] (mkState [])
      (getCachedProductImageS (mkState []) redJacket.image).1
      (getCachedProductImageS (mkState []) redJacket.image).2
      ("Failed to extract product image for Red Jacket: 500 boom")
      ((extractActualProductImage envApiDown
        (getCachedProductImageS (mkState []) redJacket.image).2 "k"
        redJacket.image redJacket.name).2)
      ("data:image/png;base64," ++ "u") rfl rfl rfl rfl,
   extraction_fallback_composes_raw.2 envApiDown (mkState []) "k" "base"
      [redJacket] ("data:image/png;base64," ++ "base")
      (convertUrlToBase64 envApiDown (mkState []) "base").2
      (by decide) rfl⟩

end StyleMe
